import Mathlib

/-
Shallow embedding of src/Migration-script/Python/migrate_github_repos.py.

The script reads configuration from the environment (after loading a .env
file), reads a repos.csv task list, invokes an external migration command
once per task, classifies the outcome, appends one row per executed task to
MigrationDetails.csv, and writes a per-task diagnostic file on failure.

Modelling conventions:
  * Python optional strings (dict.get / os.getenv results) are Option String;
    Python truthiness of such a value is pyTruthy.
  * The external process run (subprocess.run) either completes with captured
    stdout, stderr and a return code, or raises an exception with a message
    (RunResult).  Wall-clock bracketing is modelled by passing the formatted
    start/end timestamps and the elapsed seconds (an exact rational) in.
  * float formatting with two decimal places stores the value rounded to a
    whole number of hundredths; round2 is that rounding.  Rounding of the
    exact decimal values follows round-half-up, which agrees with the
    behaviour CPython exhibits on the values appearing in the theorems below.
  * The outcome CSV file is Option (List StoreLine): none when the file does
    not exist, otherwise the list of its lines (header or data).
  * The run log is a list of (level, message) entries; logging.FileHandler is
    opened with its default mode, which appends, so the log file contents
    seen by main start from the pre-existing contents.
  * Messages reproduce the script's f-strings, with the single-quote
    punctuation around interpolated names and the numeric duration suffix of
    the final per-task info message elided.
-/

namespace Migration

/-- Python truthiness of an optional string: None and the empty string are
falsy, any other string is truthy. -/
def pyTruthy : Option String → Bool
  | none => false
  | some s => !(s == "")

/-- Contiguous-sublist test on lists of characters: Python's
needle in hay for strings. -/
def listHasSub (needle : List Char) : List Char → Bool
  | [] => needle.isEmpty
  | c :: rest => needle.isPrefixOf (c :: rest) || listHasSub needle (rest)

/-- Python substring containment hay.__contains__(needle). -/
def strHasSub (hay needle : String) : Bool :=
  listHasSub needle.data hay.data

/-- Python str.lower, character by character (ASCII case mapping suffices
for the substrings the script tests). -/
def strLower (s : String) : String :=
  ⟨s.data.map Char.toLower⟩

/-- Rounding an exact rational to two decimal places, as the script's
formatting with two decimals does to the value it writes. -/
def round2 (q : ℚ) : ℚ :=
  ((round (100 * q) : ℤ) : ℚ) / 100

/-- Names required by validate_env_vars (source line 27). -/
def requiredVars : List String :=
  ["GH_SOURCE_PAT", "GH_PAT", "SOURCE", "DESTINATION"]

/-- The missing_vars list comprehension of validate_env_vars (line 28):
variables whose os.getenv value is falsy. -/
def missingVars (env : String → Option String) : List String :=
  requiredVars.filter (fun v => !(pyTruthy (env v)))

/-- validate_env_vars (lines 25-33): true when no required variable is
missing. -/
def validate_env_vars (env : String → Option String) : Bool :=
  (missingVars env).isEmpty

/-- Severity levels used by the script's logging calls. -/
inductive LogLevel where
  | info
  | warning
  | error
deriving DecidableEq, Repr

/-- One line of the run log: severity and message. -/
structure LogEntry where
  level : LogLevel
  msg : String
deriving DecidableEq, Repr

/-- Result of subprocess.run inside migrate_repository: either the external
command terminated (captured stdout, stderr, return code), or an exception
was raised (str(e) kept). -/
inductive RunResult where
  | completed (stdout stderr : String) (returncode : ℤ)
  | raised (msg : String)
deriving DecidableEq, Repr

/-- The failure test of line 55: return code nonzero, or the lowercased
stdout contains the substring error, or it contains the substring failed. -/
def failedCheck (returncode : ℤ) (stdoutText : String) : Bool :=
  returncode != 0
    || strHasSub (strLower stdoutText) "error"
    || strHasSub (strLower stdoutText) "failed"

/-- One data row of MigrationDetails.csv (lines 75-85).  The two duration
fields hold the values written by the two-decimal formatting. -/
structure OutcomeRow where
  sourceOrg : String
  sourceRepo : String
  targetOrg : String
  targetRepo : String
  status : String
  startTime : String
  endTime : String
  timeTakenSeconds : ℚ
  timeTakenMinutes : ℚ
deriving DecidableEq, Repr

/-- The CSV row of lines 75-85 for a task executed with the given
status and elapsed seconds. -/
def mkRow (src dst currentName newName status startT endT : String)
    (elapsed : ℚ) : OutcomeRow :=
  { sourceOrg := src
    sourceRepo := currentName
    targetOrg := dst
    targetRepo := newName
    status := status
    startTime := startT
    endTime := endT
    timeTakenSeconds := round2 elapsed
    timeTakenMinutes := round2 (elapsed / 60) }

/-- Path of the per-task diagnostic file (lines 57 and 66). -/
def diagPath (currentName : String) : String :=
  "logs/" ++ currentName ++ ".log"

/-- Everything one call to migrate_repository (lines 43-87) does: the final
status, the diagnostic file written (path and contents) if any, the log
entries emitted, and the CSV row appended. -/
structure TaskResult where
  status : String
  diagFile : Option (String × String)
  logs : List LogEntry
  row : OutcomeRow
deriving DecidableEq, Repr

/-- migrate_repository (lines 43-87).  src and dst are the rendered values
of os.getenv SOURCE and DESTINATION; res is what subprocess.run did; startT,
endT are the formatted wall-clock timestamps and elapsed the exact elapsed
seconds between them. -/
def migrate_repository (src dst currentName newName : String)
    (res : RunResult) (startT endT : String) (elapsed : ℚ) : TaskResult :=
  match res with
  | .completed out err rc =>
    if failedCheck rc out then
      { status := "Failed"
        diagFile := some (diagPath currentName, out ++ err)
        logs := [⟨.error, "Error log saved to " ++ diagPath currentName⟩,
                 ⟨.info, "Command output for " ++ currentName ++ ": " ++ out⟩,
                 ⟨.info, "Migration result: Status=Failed"⟩]
        row := mkRow src dst currentName newName "Failed" startT endT elapsed }
    else
      { status := "Success"
        diagFile := none
        logs := [⟨.info, "Command output for " ++ currentName ++ ": " ++ out⟩,
                 ⟨.info, "Migration result: Status=Success"⟩]
        row := mkRow src dst currentName newName "Success" startT endT elapsed }
  | .raised msg =>
      { status := "Failed"
        diagFile := some (diagPath currentName, msg)
        logs := [⟨.error, "Exception caught during migration of " ++ currentName
                    ++ ". See " ++ diagPath currentName ++ " for details."⟩,
                 ⟨.info, "Migration result: Status=Failed"⟩]
        row := mkRow src dst currentName newName "Failed" startT endT elapsed }

/-- Writing a diagnostic file into the logs directory, modelled as a map from
file name to contents.  Opening with mode w truncates, so an existing entry
under the same name is replaced. -/
def writeDiagFile (dir : String → Option String) :
    Option (String × String) → (String → Option String)
  | none => dir
  | some nc => fun k => if k = nc.1 then some nc.2 else dir k

/-- One row read by csv.DictReader from repos.csv, as seen by main (lines
127-128): the results of row.get for the two required column names. -/
structure CsvRow where
  currentName : Option String
  newName : Option String
deriving DecidableEq, Repr

/-- The external environment of one run: for a task (current name, new name),
what subprocess.run does, the formatted start and end timestamps, and the
elapsed seconds between them. -/
structure World where
  run : String → String → RunResult
  startT : String → String → String
  endT : String → String → String
  elapsed : String → String → ℚ

/-- A world whose external command always exits 0 with empty output,
instantly; used for concrete evaluations. -/
def quietWorld : World :=
  { run := fun _ _ => .completed "" "" 0
    startT := fun _ _ => "2026-01-01 00:00:00"
    endT := fun _ _ => "2026-01-01 00:00:00"
    elapsed := fun _ _ => 0 }

/-- The skip message of line 131. -/
def skipMsg : String :=
  "Missing CURRENT-NAME or NEW-NAME in CSV row. Skipping."

/-- The migrate_repository call main makes for one valid row (line 135),
with the row fields unwrapped the way the loop body uses them. -/
def execTask (src dst : String) (w : World) (r : CsvRow) : TaskResult :=
  let c := r.currentName.getD ""
  let n := r.newName.getD ""
  migrate_repository src dst c n (w.run c n) (w.startT c n) (w.endT c n)
    (w.elapsed c n)

/-- The loop predicate under which main executes a row: both fields truthy
(line 130 negated). -/
def validRow (r : CsvRow) : Bool :=
  pyTruthy r.currentName && pyTruthy r.newName

/-- One iteration of the row loop of main (lines 126-135): either the skip
branch (line 130-132) producing no task and an error log entry, or one
executed task with its log entries. -/
def processRow (src dst : String) (w : World) (r : CsvRow) :
    List TaskResult × List LogEntry :=
  if !(pyTruthy r.currentName) || !(pyTruthy r.newName) then
    ([], [⟨.error, skipMsg⟩])
  else
    let t := execTask src dst w r
    ([t], ⟨.info, "Migrating " ++ r.currentName.getD "" ++ " -> "
            ++ r.newName.getD "" ++ "..."⟩ :: t.logs)

/-- The whole row loop of main (lines 126-135): tasks executed in input
order, and the log entries emitted, in order. -/
def processRows (src dst : String) (w : World) :
    List CsvRow → List TaskResult × List LogEntry
  | [] => ([], [])
  | r :: rest =>
    let p := processRow src dst w r
    let q := processRows src dst w rest
    (p.1 ++ q.1, p.2 ++ q.2)

/-- One line of MigrationDetails.csv: the header row or a data row. -/
inductive StoreLine where
  | header
  | data (r : OutcomeRow)
deriving DecidableEq, Repr

/-- initialize_csv_output (lines 35-41): when the output file does not exist
(none), create it with the header row; otherwise leave it untouched. -/
def initialize_csv_output :
    Option (List StoreLine) → Option (List StoreLine)
  | none => some [StoreLine.header]
  | some ls => some ls

/-- Everything outside the program that determines one run of main: the
pre-existing run-log contents (the FileHandler appends to them), whether
.env exists, the effective environment os.getenv sees after load_dotenv,
whether repos.csv exists and its rows, the outcome CSV contents if the file
exists, and the external world. -/
structure MainInput where
  priorLogFile : List LogEntry
  envFileExists : Bool
  env : String → Option String
  reposCsvExists : Bool
  reposRows : List CsvRow
  outputCsv : Option (List StoreLine)
  world : World

/-- Observable results of one run of main: the process exit status, whether
repos.csv was opened and read, the final outcome CSV contents, the final
run-log file contents, and the diagnostic files written in order. -/
structure MainOutput where
  exitCode : Nat
  readReposCsv : Bool
  store : Option (List StoreLine)
  logFile : List LogEntry
  diagWrites : List (String × String)

/-- main (lines 89-137).  The script never calls sys.exit, and main returns
normally on every early-exit path, so the interpreter's exit status is 0 on
all of them.  logging.FileHandler is opened with its default mode, which
appends, so the final log file starts with the pre-existing contents. -/
def main (i : MainInput) : MainOutput :=
  let log1 := i.priorLogFile
    ++ [⟨.info, "Starting GitHub repository migration script..."⟩]
  if i.envFileExists then
    let log2 := log1 ++ [⟨.info, "Loaded environment variables from .env"⟩]
    if validate_env_vars i.env then
      if i.reposCsvExists then
        let store0 := initialize_csv_output i.outputCsv
        let src := (i.env "SOURCE").getD "None"
        let dst := (i.env "DESTINATION").getD "None"
        let pr := processRows src dst i.world i.reposRows
        { exitCode := 0
          readReposCsv := true
          store := store0.map (fun ls =>
            ls ++ pr.1.map (fun t => StoreLine.data t.row))
          logFile := log2 ++ pr.2
            ++ [⟨.info, "All repository migrations complete!"⟩]
          diagWrites := pr.1.filterMap (fun t => t.diagFile) }
      else
        { exitCode := 0
          readReposCsv := false
          store := i.outputCsv
          logFile := log2 ++ [⟨.error, "CSV file repos.csv not found. Please create with columns: CURRENT-NAME, NEW-NAME"⟩]
          diagWrites := [] }
    else
      { exitCode := 0
        readReposCsv := false
        store := i.outputCsv
        logFile := log2 ++ [⟨.error, "Required environment variables missing: "
          ++ String.intercalate ", " (missingVars i.env)⟩]
        diagWrites := [] }
  else
    { exitCode := 0
      readReposCsv := false
      store := i.outputCsv
      logFile := log1 ++ [⟨.error, ".env file not found."⟩]
      diagWrites := [] }

/-- Spec-side classification predicate, following the words of the spec's
classification rule: Failed iff the exit code is nonzero, or the captured
COMBINED standard-output and standard-error text, lowercased, contains the
substring error or the substring failed.  Kept separate from failedCheck,
which is the source's own test, for comparison. -/
def specFailedCombined (rc : ℤ) (out err : String) : Prop :=
  rc ≠ 0 ∨ strHasSub (strLower (out ++ err)) "error" = true
    ∨ strHasSub (strLower (out ++ err)) "failed" = true

/-- Whether a store line is the header row. -/
def isHeaderLine : StoreLine → Bool
  | .header => true
  | .data _ => false

/-- Number of header rows in an outcome-store file. -/
def headerCount (ls : List StoreLine) : Nat :=
  (ls.filter isHeaderLine).length

/-- A sample environment in which SOURCE is absent and the other three
required values are set. -/
def envMissingSource : String → Option String :=
  fun v => if v == "SOURCE" then none else some "tok"

/-- A sample environment in which all four required values are set. -/
def envAllSet : String → Option String :=
  fun _ => some "tok"

end Migration


namespace Migration

/-- The source's failure test, read as a proposition: nonzero return code, or
lowercased STDOUT ONLY containing error or failed. -/
theorem failedCheck_iff (rc : ℤ) (out : String) :
    failedCheck rc out = true
      ↔ rc ≠ 0 ∨ strHasSub (strLower out) "error" = true
          ∨ strHasSub (strLower out) "failed" = true := by
  simp [failedCheck, Bool.or_eq_true, bne_iff_ne, or_assoc]

/-- The status migrate_repository records for a completed external command. -/
theorem migrate_status_completed (src dst c n st et : String) (t : ℚ)
    (out err : String) (rc : ℤ) :
    (migrate_repository src dst c n (.completed out err rc) st et t).status
      = if failedCheck rc out then "Failed" else "Success" := by
  by_cases h : failedCheck rc out = true <;> simp [migrate_repository, h]

/-- C1 counterexample: the external command exits 0 with clean stdout but the
word error on stderr.  The code records Success, while the claim's rule
(combined stdout and stderr text) classifies the task Failed. -/
theorem C1_counterexample :
    (migrate_repository "srcOrg" "dstOrg" "repo" "repoNew"
        (.completed "done" "error: oops" 0) "t1" "t2" 0).status = "Success"
    ∧ specFailedCombined 0 "done" "error: oops" := by
  constructor
  · rw [migrate_status_completed]
    have h : failedCheck 0 "done" = false := by decide
    rw [h]
    rfl
  · exact Or.inr (Or.inl (by decide))

/-- C1 amended: for a task whose external command runs to completion, the
recorded status is Failed iff the exit code is nonzero, or the captured
STANDARD OUTPUT text alone, lowercased, contains error or failed; standard
error is not consulted.  Otherwise the status is Success. -/
theorem C1_claim (src dst c n st et : String) (t : ℚ)
    (out err : String) (rc : ℤ) :
    ((migrate_repository src dst c n (.completed out err rc) st et t).status
        = "Failed"
      ↔ (rc ≠ 0 ∨ strHasSub (strLower out) "error" = true
          ∨ strHasSub (strLower out) "failed" = true))
    ∧ ((migrate_repository src dst c n (.completed out err rc) st et t).status
        = "Success"
      ↔ ¬(rc ≠ 0 ∨ strHasSub (strLower out) "error" = true
          ∨ strHasSub (strLower out) "failed" = true)) := by
  rw [migrate_status_completed, ← failedCheck_iff rc out]
  cases h : failedCheck rc out <;> simp [h, or_assoc]

end Migration

namespace Migration

/-- The row-loop condition of line 130 is the negation of validRow. -/
theorem processRow_cond (r : CsvRow) :
    (!(pyTruthy r.currentName) || !(pyTruthy r.newName)) = !(validRow r) := by
  simp [validRow]

/-- The tasks the row loop executes are exactly the valid rows, each executed
once via execTask, in input order. -/
theorem processRows_tasks (src dst : String) (w : World) (rows : List CsvRow) :
    (processRows src dst w rows).1
      = (rows.filter validRow).map (execTask src dst w) := by
  induction rows with
  | nil => rfl
  | cons r rest ih =>
      cases h : validRow r <;>
        simp [processRows, processRow, processRow_cond, h, ih, List.filter_cons]

/-- C2 counterexample: a row whose CURRENT-NAME field is present (non-missing)
but empty.  Both fields are non-missing, yet the loop appends no outcome row
for it. -/
theorem C2_counterexample :
    ((⟨some "", some "x"⟩ : CsvRow).currentName ≠ none
      ∧ (⟨some "", some "x"⟩ : CsvRow).newName ≠ none)
    ∧ (processRows "s" "d" quietWorld [⟨some "", some "x"⟩]).1 = [] := by
  refine ⟨⟨by simp, by simp⟩, ?_⟩
  simp [processRows, processRow, pyTruthy]

/-- C2 amended: for every input row whose CURRENT-NAME and NEW-NAME are both
present AND non-empty, exactly one outcome row is appended to the outcome
store, in input order; rows skipped because a field is missing or empty
produce no outcome row. -/
theorem C2_claim (src dst : String) (w : World) (rows : List CsvRow) :
    (processRows src dst w rows).1
      = (rows.filter validRow).map (execTask src dst w)
    ∧ ∀ i : MainInput, i.envFileExists = true → validate_env_vars i.env = true →
        i.reposCsvExists = true →
        (main i).store = (initialize_csv_output i.outputCsv).map (fun ls =>
          ls ++ ((i.reposRows.filter validRow).map (fun r =>
            StoreLine.data (execTask ((i.env "SOURCE").getD "None")
              ((i.env "DESTINATION").getD "None") i.world r).row))) := by
  refine ⟨processRows_tasks src dst w rows, ?_⟩
  intro i h1 h2 h3
  simp only [main, h1, h2, h3, if_true, processRows_tasks, List.map_map]
  rfl

/-- C2 witness: a concrete full run with one valid row appends exactly one
data row after the freshly created header. -/
theorem C2_witness :
    (main ⟨[], true, envAllSet, true, [⟨some "a", some "b"⟩], none,
        quietWorld⟩).store
      = some [StoreLine.header,
          StoreLine.data (execTask "tok" "tok" quietWorld ⟨some "a", some "b"⟩).row] := by
  have h := (C2_claim "tok" "tok" quietWorld []).2
    ⟨[], true, envAllSet, true, [⟨some "a", some "b"⟩], none, quietWorld⟩
    rfl (by decide) rfl
  simpa [initialize_csv_output, validRow, pyTruthy, envAllSet] using h

/-- C7 counterexample: the skip message for a row with a missing field is
logged at error severity, not at warning severity. -/
theorem C7_counterexample :
    (processRows "s" "d" quietWorld [⟨none, some "x"⟩]).2
      = [⟨LogLevel.error, skipMsg⟩]
    ∧ LogLevel.error ≠ LogLevel.warning := by
  constructor
  · simp [processRows, processRow, pyTruthy]
  · decide

/-- C7 amended: for every input row missing CURRENT-NAME or NEW-NAME, no
outcome row is written, the skip message is logged at ERROR severity, and
processing of the remaining rows continues unchanged. -/
theorem C7_claim (src dst : String) (w : World) (r : CsvRow)
    (rest : List CsvRow) (h : r.currentName = none ∨ r.newName = none) :
    (processRows src dst w (r :: rest)).1 = (processRows src dst w rest).1
    ∧ (processRows src dst w (r :: rest)).2
        = ⟨LogLevel.error, skipMsg⟩ :: (processRows src dst w rest).2 := by
  have hc : (!(pyTruthy r.currentName) || !(pyTruthy r.newName)) = true := by
    rcases h with h | h <;> simp [h, pyTruthy]
  constructor <;> simp [processRows, processRow, hc]

/-- C7 witness: a concrete row missing CURRENT-NAME is skipped while the
following valid row is still processed, with the skip entry first. -/
theorem C7_witness :
    (processRows "s" "d" quietWorld [⟨none, some "x"⟩, ⟨some "a", some "b"⟩]).1
      = (processRows "s" "d" quietWorld [⟨some "a", some "b"⟩]).1
    ∧ (processRows "s" "d" quietWorld [⟨none, some "x"⟩, ⟨some "a", some "b"⟩]).2
      = ⟨LogLevel.error, skipMsg⟩
          :: (processRows "s" "d" quietWorld [⟨some "a", some "b"⟩]).2 :=
  C7_claim "s" "d" quietWorld ⟨none, some "x"⟩ [⟨some "a", some "b"⟩]
    (Or.inl rfl)

/-- C10: a row field that is present but empty is treated identically to a
missing field: the loop iteration it produces is literally the same (same
skip log entry at the same severity, no outcome row), and the remaining rows
are still processed. -/
theorem C10_claim (src dst : String) (w : World) (a b : Option String)
    (rest : List CsvRow) :
    processRow src dst w ⟨some "", b⟩ = processRow src dst w ⟨none, b⟩
    ∧ processRow src dst w ⟨a, some ""⟩ = processRow src dst w ⟨a, none⟩
    ∧ (processRows src dst w (⟨some "", b⟩ :: rest)).1
        = (processRows src dst w rest).1
    ∧ (processRows src dst w (⟨a, some ""⟩ :: rest)).1
        = (processRows src dst w rest).1
    ∧ (processRows src dst w (⟨some "", b⟩ :: rest)).2
        = ⟨LogLevel.error, skipMsg⟩ :: (processRows src dst w rest).2
    ∧ (processRows src dst w (⟨a, some ""⟩ :: rest)).2
        = ⟨LogLevel.error, skipMsg⟩ :: (processRows src dst w rest).2 := by
  refine ⟨?_, ?_, ?_, ?_, ?_, ?_⟩ <;>
    simp [processRows, processRow, pyTruthy]

end Migration

namespace Migration

/-- C3 counterexample: with SOURCE absent from the configuration, the run
does abort before reading the input list and leaves the outcome store
untouched, but the process exit status is 0, not non-zero: main just
returns, and the script then ends normally. -/
theorem C3_counterexample :
    missingVars envMissingSource = ["SOURCE"]
    ∧ (main ⟨[], true, envMissingSource, true, [⟨some "a", some "b"⟩],
        none, quietWorld⟩).exitCode = 0
    ∧ (main ⟨[], true, envMissingSource, true, [⟨some "a", some "b"⟩],
        none, quietWorld⟩).readReposCsv = false
    ∧ (main ⟨[], true, envMissingSource, true, [⟨some "a", some "b"⟩],
        none, quietWorld⟩).store = none := by
  refine ⟨by decide, rfl, rfl, rfl⟩

/-- C3 amended: if any of the four required configuration values is absent
at startup, the run aborts before reading the input list and writes zero
outcome rows, and the process terminates with exit status ZERO (main returns
normally; the script never calls sys.exit). -/
theorem C3_claim (i : MainInput) (h1 : i.envFileExists = true)
    (h2 : missingVars i.env ≠ []) :
    (main i).readReposCsv = false
    ∧ (main i).store = i.outputCsv
    ∧ (main i).diagWrites = []
    ∧ (main i).exitCode = 0 := by
  have hv : validate_env_vars i.env = false := by
    rcases hmv : missingVars i.env with _ | ⟨a, l⟩
    · exact absurd hmv h2
    · simp [validate_env_vars, hmv]
  simp [main, h1, hv]

/-- C3 witness: a concrete run with SOURCE missing leaves a pre-existing
store untouched and exits with status 0. -/
theorem C3_witness :
    (main ⟨[], true, envMissingSource, true, [⟨some "a", some "b"⟩],
        some [StoreLine.header], quietWorld⟩).store = some [StoreLine.header]
    ∧ (main ⟨[], true, envMissingSource, true, [⟨some "a", some "b"⟩],
        some [StoreLine.header], quietWorld⟩).exitCode = 0 := by
  have h := C3_claim
    ⟨[], true, envMissingSource, true, [⟨some "a", some "b"⟩],
      some [StoreLine.header], quietWorld⟩ rfl (by decide)
  exact ⟨h.2.1, h.2.2.2⟩

/-- C9: whenever the .env file is absent, main returns before reading the
input list and before writing any outcome row or diagnostic file, whatever
the process environment holds. -/
theorem C9_claim (i : MainInput) (h : i.envFileExists = false) :
    (main i).readReposCsv = false
    ∧ (main i).store = i.outputCsv
    ∧ (main i).diagWrites = [] := by
  simp [main, h]

/-- C9 witness: .env absent while all four required environment variables
are set in the process environment; repos.csv exists with a valid row, yet
nothing is read or written. -/
theorem C9_witness :
    validate_env_vars envAllSet = true
    ∧ (main ⟨[], false, envAllSet, true, [⟨some "a", some "b"⟩], none,
        quietWorld⟩).readReposCsv = false
    ∧ (main ⟨[], false, envAllSet, true, [⟨some "a", some "b"⟩], none,
        quietWorld⟩).store = none := by
  have h := C9_claim
    ⟨[], false, envAllSet, true, [⟨some "a", some "b"⟩], none, quietWorld⟩ rfl
  exact ⟨by decide, h.1, h.2.1⟩

/-- C4: for every executed task, the per-task diagnostic file named after
the source repository is written exactly when the status is Failed; on the
completed path it holds the captured stdout plus stderr text, on the raised
path the task is Failed with the exception text as the diagnostic; no file
is written for a Success outcome, and writing overwrites any pre-existing
file of the same name. -/
theorem C4_claim (src dst c n st et : String) (t : ℚ) (out err msg : String)
    (rc : ℤ) (dir : String → Option String) :
    ((migrate_repository src dst c n (.completed out err rc) st et t).diagFile
      = if failedCheck rc out then some (diagPath c, out ++ err) else none)
    ∧ (∀ r : RunResult,
        (migrate_repository src dst c n r st et t).diagFile.isSome = true
          ↔ (migrate_repository src dst c n r st et t).status = "Failed")
    ∧ (migrate_repository src dst c n (.raised msg) st et t).status = "Failed"
    ∧ (migrate_repository src dst c n (.raised msg) st et t).diagFile
        = some (diagPath c, msg)
    ∧ (∀ r : RunResult,
        (migrate_repository src dst c n r st et t).status = "Success" →
          (migrate_repository src dst c n r st et t).diagFile = none)
    ∧ writeDiagFile dir (some (diagPath c, msg)) (diagPath c) = some msg := by
  refine ⟨?_, ?_, ?_, ?_, ?_, ?_⟩
  · by_cases h : failedCheck rc out = true <;> simp [migrate_repository, h]
  · intro r
    rcases r with ⟨o, e, code⟩ | m
    · by_cases h : failedCheck code o = true <;> simp [migrate_repository, h]
    · simp [migrate_repository]
  · simp [migrate_repository]
  · simp [migrate_repository]
  · intro r
    rcases r with ⟨o, e, code⟩ | m
    · by_cases h : failedCheck code o = true <;> simp [migrate_repository, h]
    · simp [migrate_repository]
  · simp [writeDiagFile]

/-- C4 witness: a clean completed run writes no diagnostic file, and a
launch fault writes the exception text under the repository's name. -/
theorem C4_witness :
    (migrate_repository "s" "d" "r" "n" (.completed "all good" "" 0)
        "a" "b" 1).diagFile = none
    ∧ (migrate_repository "s" "d" "r" "n" (.raised "boom") "a" "b" 1).diagFile
        = some (diagPath "r", "boom") := by
  refine ⟨?_, (C4_claim "s" "d" "r" "n" "a" "b" 1 "all good" "" "boom" 0
    (fun _ => none)).2.2.2.1⟩
  refine (C4_claim "s" "d" "r" "n" "a" "b" 1 "all good" "" "boom" 0
    (fun _ => none)).2.2.2.2.1 (.completed "all good" "" 0) ?_
  rw [migrate_status_completed]
  have h : failedCheck 0 "all good" = false := by decide
  simp [h]

end Migration

namespace Migration

/-- Every path through migrate_repository writes the same two duration
fields: elapsed seconds rounded to hundredths, and elapsed seconds divided
by sixty rounded to hundredths. -/
theorem migrate_row_duration (src dst c n st et : String) (t : ℚ)
    (res : RunResult) :
    (migrate_repository src dst c n res st et t).row.timeTakenSeconds
        = round2 t
    ∧ (migrate_repository src dst c n res st et t).row.timeTakenMinutes
        = round2 (t / 60) := by
  rcases res with ⟨o, e, code⟩ | m
  · by_cases h : failedCheck code o = true <;>
      simp [migrate_repository, h, mkRow]
  · simp [migrate_repository, mkRow]

/-- Rounding to hundredths preserves non-negativity. -/
theorem round2_nonneg (q : ℚ) (h : 0 ≤ q) : 0 ≤ round2 q := by
  rw [round2, round_eq]
  have h1 : (0 : ℤ) ≤ ⌊100 * q + 1/2⌋ := by
    rw [Int.le_floor]
    push_cast
    linarith
  have h2 : (0 : ℚ) ≤ ((⌊100 * q + 1/2⌋ : ℤ) : ℚ) := by exact_mod_cast h1
  positivity

/-- A value rounded to hundredths is an exact multiple of one hundredth:
scaled by 100 it has denominator 1. -/
theorem round2_hundredths (q : ℚ) : ((100 : ℚ) * round2 q).den = 1 := by
  rw [round2]
  have h : (100 : ℚ) * (((round (100 * q) : ℤ) : ℚ) / 100)
      = ((round (100 * q) : ℤ) : ℚ) := by
    field_simp
  rw [h, Rat.den_intCast]

/-- C5 counterexample: at an elapsed time of 0.295001 seconds the written
seconds field is 0.30 and the written minutes field is 0.00, but
0.30 / 60 = 0.005 rounds to 0.01: the minutes field does not equal the
seconds FIELD divided by 60 rounded to two decimals, because the code
rounds the raw elapsed value instead. -/
theorem C5_counterexample :
    (migrate_repository "s" "d" "r" "n" (.completed "" "" 0) "a" "b"
        (295001/1000000)).row.timeTakenSeconds = 3/10
    ∧ (migrate_repository "s" "d" "r" "n" (.completed "" "" 0) "a" "b"
        (295001/1000000)).row.timeTakenMinutes = 0
    ∧ round2 ((3/10 : ℚ) / 60) = 1/100
    ∧ (migrate_repository "s" "d" "r" "n" (.completed "" "" 0) "a" "b"
        (295001/1000000)).row.timeTakenMinutes
      ≠ round2 ((migrate_repository "s" "d" "r" "n" (.completed "" "" 0)
          "a" "b" (295001/1000000)).row.timeTakenSeconds / 60) := by
  obtain ⟨hs, hm⟩ := migrate_row_duration "s" "d" "r" "n" "a" "b"
    (295001/1000000) (.completed "" "" 0)
  have h1 : round2 ((295001 : ℚ)/1000000) = 3/10 := by
    rw [round2, round_eq]; norm_num
  have h2 : round2 ((295001 : ℚ)/1000000 / 60) = 0 := by
    rw [round2, round_eq]; norm_num
  have h3 : round2 ((3/10 : ℚ) / 60) = 1/100 := by
    rw [round2, round_eq]; norm_num
  refine ⟨hs.trans h1, hm.trans h2, h3, ?_⟩
  rw [hm, h2, hs, h1, h3]
  norm_num

/-- C5 amended: for every outcome row written with a non-negative elapsed
time, TimeTakenSeconds is the elapsed seconds rounded to two decimals and is
non-negative, TimeTakenMinutes is the RAW elapsed seconds divided by 60
rounded to two decimals (not the rounded seconds field divided by 60, which
can differ in the last hundredth), and both fields carry exactly two decimal
places (they are exact multiples of 0.01). -/
theorem C5_claim (src dst c n st et : String) (t : ℚ) (res : RunResult)
    (h : 0 ≤ t) :
    (migrate_repository src dst c n res st et t).row.timeTakenSeconds
        = round2 t
    ∧ (migrate_repository src dst c n res st et t).row.timeTakenMinutes
        = round2 (t / 60)
    ∧ 0 ≤ (migrate_repository src dst c n res st et t).row.timeTakenSeconds
    ∧ ((100 : ℚ)
        * (migrate_repository src dst c n res st et t).row.timeTakenSeconds).den
        = 1
    ∧ ((100 : ℚ)
        * (migrate_repository src dst c n res st et t).row.timeTakenMinutes).den
        = 1 := by
  obtain ⟨hs, hm⟩ := migrate_row_duration src dst c n st et t res
  refine ⟨hs, hm, ?_, ?_, ?_⟩
  · rw [hs]; exact round2_nonneg t h
  · rw [hs]; exact round2_hundredths t
  · rw [hm]; exact round2_hundredths (t / 60)

/-- C5 witness: at an elapsed time of 90 seconds the row records 90.00
seconds and 1.50 minutes. -/
theorem C5_witness :
    (migrate_repository "s" "d" "r" "n" (.completed "" "" 0) "a" "b"
        90).row.timeTakenSeconds = 90
    ∧ (migrate_repository "s" "d" "r" "n" (.completed "" "" 0) "a" "b"
        90).row.timeTakenMinutes = 3/2
    ∧ 0 ≤ (migrate_repository "s" "d" "r" "n" (.completed "" "" 0) "a" "b"
        90).row.timeTakenSeconds := by
  have h := C5_claim "s" "d" "r" "n" "a" "b" 90 (.completed "" "" 0)
    (by norm_num)
  refine ⟨?_, ?_, h.2.2.1⟩
  · rw [h.1, round2, round_eq]; norm_num
  · rw [h.2.1, round2, round_eq]; norm_num

/-- Appending store lines adds their header counts. -/
theorem headerCount_append (a b : List StoreLine) :
    headerCount (a ++ b) = headerCount a + headerCount b := by
  simp [headerCount, List.filter_append]

/-- Data rows contribute no header rows. -/
theorem headerCount_dataMap (xs : List TaskResult) :
    headerCount (xs.map (fun t => StoreLine.data t.row)) = 0 := by
  induction xs with
  | nil => rfl
  | cons x rest ih => simp [headerCount, List.filter_cons, isHeaderLine]

/-- C6: the header row is written only when the outcome store does not yet
exist; a run against an existing store leaves it untouched on every early
exit and appends only data rows on the full path, so the number of header
rows never changes. -/
theorem C6_claim :
    (∀ ls : List StoreLine, initialize_csv_output (some ls) = some ls)
    ∧ initialize_csv_output none = some [StoreLine.header]
    ∧ ∀ (i : MainInput) (ls : List StoreLine), i.outputCsv = some ls →
        headerCount (((main i).store).getD []) = headerCount ls := by
  refine ⟨fun ls => rfl, rfl, ?_⟩
  intro i ls h
  cases h1 : i.envFileExists
  · simp [main, h1, h]
  · cases h2 : validate_env_vars i.env
    · simp [main, h1, h2, h]
    · cases h3 : i.reposCsvExists
      · simp [main, h1, h2, h3, h]
      · simp [main, h1, h2, h3, h, initialize_csv_output,
          headerCount_append, headerCount_dataMap]

/-- C6 witness: a full run against an existing store holding one header row
ends with exactly one header row. -/
theorem C6_witness :
    headerCount (((main ⟨[], true, envAllSet, true, [⟨some "a", some "b"⟩],
        some [StoreLine.header], quietWorld⟩).store).getD [])
      = headerCount [StoreLine.header] :=
  C6_claim.2.2 ⟨[], true, envAllSet, true, [⟨some "a", some "b"⟩],
    some [StoreLine.header], quietWorld⟩ [StoreLine.header] rfl

/-- C8 counterexample: after a run, the first line of the run-log file is
still an event written by a previous run, so the file does not contain only
events of the current run: the FileHandler appends instead of truncating. -/
theorem C8_counterexample :
    ((main ⟨[⟨LogLevel.info, "event from a previous run"⟩], false,
        fun _ => none, false, [], none, quietWorld⟩).logFile).head?
      = some ⟨LogLevel.info, "event from a previous run"⟩ := rfl

/-- C8 amended: the run-log file is opened in append mode at startup, so
after a run it starts with the pre-existing contents unchanged, followed by
at least one event of the current run. -/
theorem C8_claim (i : MainInput) :
    ((main i).logFile).take i.priorLogFile.length = i.priorLogFile
    ∧ ((main i).logFile).drop i.priorLogFile.length ≠ [] := by
  cases h1 : i.envFileExists
  · constructor <;>
      simp [main, h1, List.append_assoc, List.take_left, List.drop_left]
  · cases h2 : validate_env_vars i.env
    · constructor <;>
        simp [main, h1, h2, List.append_assoc, List.take_left, List.drop_left]
    · cases h3 : i.reposCsvExists
      · constructor <;>
          simp [main, h1, h2, h3, List.append_assoc, List.take_left,
            List.drop_left]
      · constructor <;>
          simp [main, h1, h2, h3, List.append_assoc, List.take_left,
            List.drop_left]

/-- C8 witness: a concrete run on top of a one-line log file keeps that line
first. -/
theorem C8_witness :
    ((main ⟨[⟨LogLevel.info, "old"⟩], false, fun _ => none, false, [], none,
        quietWorld⟩).logFile).take
          ([⟨LogLevel.info, "old"⟩] : List LogEntry).length
      = [⟨LogLevel.info, "old"⟩] :=
  (C8_claim ⟨[⟨LogLevel.info, "old"⟩], false, fun _ => none, false, [],
    none, quietWorld⟩).1

/-- C1 witness: exit code 0 with the word failed on stdout is recorded
Failed. -/
theorem C1_witness :
    (migrate_repository "s" "d" "r" "n" (.completed "connection failed" "" 0)
        "a" "b" 1).status = "Failed" := by
  refine ((C1_claim "s" "d" "r" "n" "a" "b" 1 "connection failed" "" 0).1).2 ?_
  right
  right
  decide

end Migration
